import Mathlib

/-!
Verification of the Device Session & Transport Bridge of the
AstroBox-NG-Module-AppWasm repository.

The definitions below are a shallow embedding of `src/spp/xiaomi.rs` and
`src/frontapi/miwear.rs`.  Effectful JavaScript interop is modelled by
explicit state passing plus ordered traces of the operations issued;
results of external collaborators (the `corelib` dispatcher, the Web
Serial / Web Bluetooth environment) are supplied as oracle parameters.
-/

set_option linter.unusedVariables false

namespace AppWasm

/-- Connection snapshot exchanged with the frontend; mirrors
`corelib::device::DeviceConnectionInfo { name, addr }`. -/
structure DeviceConnectionInfo where
  name : String
  addr : String
deriving DecidableEq, Repr

/-- Primitive JavaScript values observed through `Reflect::get` on the
reflected `SerialPortInfo` object. -/
inductive JsPrim where
  | str (s : String)
  | num (n : Nat)
  | undef
deriving DecidableEq, Repr

/-- Property lookup on a reflected JS object, modelled as an association
list from property keys to primitive values. -/
def jsGet (info : List (String × JsPrim)) (key : String) : JsPrim :=
  match info.find? (fun p => p.1 == key) with
  | some p => p.2
  | none => JsPrim.undef

/-- Mirrors `read_optional_string` (src/spp/xiaomi.rs lines 35-40): reads a
string property and maps the empty string to absence. -/
def read_optional_string (info : List (String × JsPrim)) (key : String) : Option String :=
  match jsGet info key with
  | JsPrim.str s => if s.isEmpty then none else some s
  | _ => none

/-- Mirrors `read_optional_u16` (src/spp/xiaomi.rs lines 42-47): reads a
numeric property; the `as u16` cast of the f64 saturates out-of-range
values. -/
def read_optional_u16 (info : List (String × JsPrim)) (key : String) : Option Nat :=
  match jsGet info key with
  | JsPrim.num n => some (min n 65535)
  | _ => none

/-- Lowercase hexadecimal digit for a value below 16. -/
def hexDigit (n : Nat) : Char :=
  if n < 10 then Char.ofNat (48 + n) else Char.ofNat (87 + n)

/-- Zero-padded four-digit lowercase hexadecimal rendering of a 16-bit
value, mirroring Rust's `{:04x}` formatting of a `u16`. -/
def hex4 (n : Nat) : String :=
  String.mk [hexDigit (n / 4096 % 16), hexDigit (n / 256 % 16),
             hexDigit (n / 16 % 16), hexDigit (n % 16)]

/-- Blank test used by the connect flow: mirrors Rust's
`addr_hint.trim().is_empty()`, which holds exactly when every character
of the string is whitespace. -/
def isBlank (s : String) : Bool :=
  s.data.all (fun c => c.isWhitespace)

/-- Transport-probe session state; mirrors the `XiaomiSpp` struct fields
that the session logic observes (`device_addr`, `device_label`) together
with which stream handles are currently held. -/
structure XiaomiSpp where
  device_addr : String
  device_label : Option String
  hasReader : Bool
  hasWriter : Bool
deriving DecidableEq, Repr

/-- Address derivation of `XiaomiSpp::new` (src/spp/xiaomi.rs lines
188-194): hardware serial number first, then the vendor/product id pair,
then a timestamp fallback. -/
def derive_device_addr (serial_number : Option String)
    (vendor_id product_id : Option Nat) (now : Nat) : String :=
  match serial_number with
  | some sn => "serial:" ++ sn
  | none =>
    match vendor_id, product_id with
    | some vendor, some product => "usb:" ++ hex4 vendor ++ ":" ++ hex4 product
    | _, _ => "serial-port-" ++ toString now

/-- Label derivation of `XiaomiSpp::new` (src/spp/xiaomi.rs lines 196-200):
the serial number, else a formatted vendor/product pair, else absent. -/
def derive_device_label (serial_number : Option String)
    (vendor_id product_id : Option Nat) : Option String :=
  serial_number.orElse (fun _ =>
    match vendor_id, product_id with
    | some vendor, some product => some ("USB " ++ hex4 vendor ++ ":" ++ hex4 product)
    | _, _ => none)

/-- Probe step of `XiaomiSpp::new`: reads the reflected port info and
builds the session state (no stream handles acquired yet). -/
def XiaomiSpp.probe (info : List (String × JsPrim)) (now : Nat) : XiaomiSpp :=
  let serial_number := read_optional_string info "serialNumber"
  let vendor_id := read_optional_u16 info "usbVendorId"
  let product_id := read_optional_u16 info "usbProductId"
  { device_addr := derive_device_addr serial_number vendor_id product_id now
    device_label := derive_device_label serial_number vendor_id product_id
    hasReader := false
    hasWriter := false }

/-- Stream and transport operations issued by the session layer, recorded
in traces in the order the source performs them. -/
inductive SppAction where
  | readerAcquire
  | writerAcquire
  | writerClose
  | readerRelease
  | portClose
  | portOpen
deriving DecidableEq, Repr

/-- Outcome of an awaited JavaScript stream operation, driven by a failure
oracle; the teardown code in the source discards every such outcome with
`let _ = ...`. -/
def jsOp (jsFail : SppAction → Bool) (a : SppAction) : Except String Unit :=
  if jsFail a then Except.error "js operation failed" else Except.ok ()

/-- Mirrors `XiaomiSpp::disconnect` (src/spp/xiaomi.rs lines 359-369):
close the writer if held, release the reader if held, close the port;
every JS-level failure is discarded (`let _ = ...`), so the call always
returns `Ok(())`.  The list is the ordered trace of operations issued. -/
def XiaomiSpp.disconnect (jsFail : SppAction → Bool) (s : XiaomiSpp) :
    Except String Unit × List SppAction :=
  let writerTrace := if s.hasWriter then [SppAction.writerClose] else []
  let _writerRes := if s.hasWriter then some (jsOp jsFail SppAction.writerClose) else none
  let readerTrace := if s.hasReader then [SppAction.readerRelease] else []
  let _portRes := jsOp jsFail SppAction.portClose
  (Except.ok (), writerTrace ++ readerTrace ++ [SppAction.portClose])

/-- Result of `XiaomiSpp::start`: the handshake outcome, the updated
session, the name and address actually handed to the external
dispatcher (`create_miwear_device`), and the ordered trace of stream
operations. -/
structure StartResult where
  result : Except String DeviceConnectionInfo
  session : XiaomiSpp
  handshakeName : String
  handshakeAddr : String
  trace : List SppAction
deriving Repr

/-- Mirrors `XiaomiSpp::start` (src/spp/xiaomi.rs lines 232-357): acquires
the reader and the writer, resolves the final name (explicit if
non-empty, else probed label, else "Bluetooth Device") and the final
address (explicit hint if non-blank, else probed address), and invokes
the external dispatcher's handshake at those values.  On handshake
failure the source releases the reader and closes the port — the writer
handle is not closed on this path — and propagates the error. -/
def XiaomiSpp.start (s : XiaomiSpp) (name addr_hint : String)
    (handshake : String → String → Except String DeviceConnectionInfo) : StartResult :=
  let s1 : XiaomiSpp := { s with hasReader := true, hasWriter := true }
  let finalName := if name.isEmpty then s.device_label.getD "Bluetooth Device" else name
  let finalAddr := if isBlank addr_hint then s.device_addr else addr_hint
  match handshake finalName finalAddr with
  | Except.ok info =>
    { result := Except.ok info
      session := s1
      handshakeName := finalName
      handshakeAddr := finalAddr
      trace := [SppAction.readerAcquire, SppAction.writerAcquire] }
  | Except.error e =>
    { result := Except.error e
      session := s1
      handshakeName := finalName
      handshakeAddr := finalAddr
      trace := [SppAction.readerAcquire, SppAction.writerAcquire,
                SppAction.readerRelease, SppAction.portClose] }

/-- Value observed by the JavaScript caller of a `#[wasm_bindgen]` export:
a Rust `()` marshals to `undefined`, while a serialized struct marshals
to an object value. -/
inductive JsRet where
  | undef
  | infoVal (i : DeviceConnectionInfo)
deriving DecidableEq, Repr

/-- Ambient front-api state (src/frontapi/miwear.rs): the `SESSIONS`
registry (address to transport session), the device entities stored in
the corelib ECS runtime (address to device name, registered by
`create_miwear_device`), and the ordered stream of events emitted to the
registered event sink. -/
structure FrontState where
  sessions : List (String × XiaomiSpp)
  devices : List (String × String)
  events : List (String × DeviceConnectionInfo)
deriving DecidableEq, Repr

/-- State mutations and stream operations performed by the front-api
layer, recorded in the order the source performs them.  `removeSession`
and `removeEntity` are recorded only when an entry was actually removed
(the underlying map removals are no-ops on absent keys). -/
inductive FrontAction where
  | removeSession (addr : String)
  | removeEntity (addr : String)
  | spp (a : SppAction)
  | emit (event : String) (payload : DeviceConnectionInfo)
deriving DecidableEq, Repr

/-- Mirrors `remove_device_and_get_info` (src/frontapi/miwear.rs lines
64-77): look up the ECS entity for the address, snapshot its
{name, addr}, and remove it from the runtime. -/
def remove_device_and_get_info (addr : String) (st : FrontState) :
    Option DeviceConnectionInfo × FrontState × List FrontAction :=
  let found := st.devices.find? (fun p => p.1 == addr)
  let info := found.map (fun p => DeviceConnectionInfo.mk p.2 p.1)
  (info,
   { st with devices := st.devices.filter (fun p => p.1 != addr) },
   if found.isSome then [FrontAction.removeEntity addr] else [])

/-- Mirrors `notify_disconnected` (src/frontapi/miwear.rs lines 79-89):
remove the ECS entity and emit one "device-disconnected" event whose
payload is the entity snapshot, or `{name: "", addr}` if no entity was
registered. -/
def notify_disconnected (addr : String) (st : FrontState) :
    FrontState × List FrontAction :=
  let (found, st1, tr) := remove_device_and_get_info addr st
  let info := found.getD (DeviceConnectionInfo.mk "" addr)
  ({ st1 with events := st1.events ++ [("device-disconnected", info)] },
   tr ++ [FrontAction.emit "device-disconnected" info])

/-- Mirrors `miwear_disconnect` (src/frontapi/miwear.rs lines 162-171):
remove the session from the registry, tear its transport down if one was
present (result discarded), then emit the disconnected notification.
The wasm-visible return value is always `Ok(())`, i.e. `undefined`. -/
def miwear_disconnect (jsFail : SppAction → Bool) (addr : String) (st : FrontState) :
    Except String JsRet × FrontState × List FrontAction :=
  let removed := st.sessions.find? (fun p => p.1 == addr)
  let st1 := { st with sessions := st.sessions.filter (fun p => p.1 != addr) }
  let teardown : List FrontAction :=
    match removed with
    | some p => FrontAction.removeSession addr ::
        ((XiaomiSpp.disconnect jsFail p.2).2.map FrontAction.spp)
    | none => []
  let (st2, tr2) := notify_disconnected addr st1
  (Except.ok JsRet.undef, st2, teardown ++ tr2)

/-- Body of the drain loop of `disconnect_all_sessions`: tear down one
drained session (the teardown result is discarded with `let _ = ...`)
and emit its disconnected notification. -/
def teardown_one (jsFail : SppAction → Bool)
    (acc : FrontState × List FrontAction) (p : String × XiaomiSpp) :
    FrontState × List FrontAction :=
  let (_res, td) := XiaomiSpp.disconnect jsFail p.2
  let (st2, tr2) := notify_disconnected p.1 acc.1
  (st2, acc.2 ++ td.map FrontAction.spp ++ tr2)

/-- Mirrors `disconnect_all_sessions` (src/frontapi/miwear.rs lines
91-101): drain the whole registry first (`map.drain()`), then for each
drained session tear down its transport (result discarded with
`let _ = ...`) and emit its disconnected notification. -/
def disconnect_all_sessions (jsFail : SppAction → Bool) (st : FrontState) :
    FrontState × List FrontAction :=
  let drained := st.sessions
  let stDrained : FrontState := { st with sessions := [] }
  let drainTrace := drained.map (fun p => FrontAction.removeSession p.1)
  drained.foldl (teardown_one jsFail) (stDrained, drainTrace)

/-- Outcome of `XiaomiSpp::new` supplied as an oracle to the connect
flow: either the probe fails (no port selected, or open rejected) or it
yields the derived device address and optional label. -/
inductive ProbeOutcome where
  | fail (e : String)
  | ok (device_addr : String) (device_label : Option String)
deriving DecidableEq, Repr

/-- Mirrors `miwear_connect` (src/frontapi/miwear.rs lines 128-160):
tear down every registered session, probe and open a new transport,
drive `XiaomiSpp::start` against the external dispatcher's handshake,
and on success register the session under the dispatcher's address,
record the ECS entity created by `create_miwear_device`, and emit one
"device-connected" event. -/
def miwear_connect (jsFail : SppAction → Bool) (probe : ProbeOutcome)
    (handshake : String → String → Except String DeviceConnectionInfo)
    (name addr_hint : String) (st : FrontState) :
    Except String DeviceConnectionInfo × FrontState × List FrontAction :=
  let (st1, tr1) := disconnect_all_sessions jsFail st
  match probe with
  | ProbeOutcome.fail e => (Except.error e, st1, tr1)
  | ProbeOutcome.ok dAddr dLabel =>
    let session : XiaomiSpp :=
      { device_addr := dAddr, device_label := dLabel, hasReader := false, hasWriter := false }
    let tr2 := tr1 ++ [FrontAction.spp SppAction.portOpen]
    let r := XiaomiSpp.start session name addr_hint handshake
    match r.result with
    | Except.error e => (Except.error e, st1, tr2 ++ r.trace.map FrontAction.spp)
    | Except.ok info =>
      let st2 : FrontState :=
        { st1 with
          sessions := st1.sessions ++ [(info.addr, r.session)]
          devices := st1.devices ++ [(r.handshakeAddr, r.handshakeName)]
          events := st1.events ++ [("device-connected", info)] }
      (Except.ok info, st2,
       tr2 ++ r.trace.map FrontAction.spp ++ [FrontAction.emit "device-connected" info])

/-- Mirrors `miwear_get_connected_devices` (src/frontapi/miwear.rs lines
173-189): snapshot of the `XiaomiDevice` entities currently registered
in the ECS runtime. -/
def miwear_get_connected_devices (st : FrontState) : List DeviceConnectionInfo :=
  st.devices.map (fun p => DeviceConnectionInfo.mk p.2 p.1)

/-- Environment oracle for `ensure_bluetooth_pairing`
(src/spp/xiaomi.rs lines 59-171): the outcome of each JavaScript interop
step, in the order the source performs them.  Steps whose result the
source propagates with `?` and steps whose failure the source swallows
are modelled uniformly as `Except` outcomes; the GATT phase, whose every
failure the source discards, is collapsed into two failure flags that
influence nothing. -/
structure BleEnv where
  hasWindow : Bool
  getBluetoothProp : Except String (Option Unit)
  castBluetooth : Except String Unit
  getRequestFn : Except String Unit
  castRequestFn : Except String Unit
  buildFilters : Except String Unit
  callRequestFn : Except String Unit
  castPromise : Except String Unit
  awaitRequest : Except String Unit
  castDevice : Except String Unit
  deviceName : String
  deviceId : String
  gattConnectFails : Bool
  gattWriteFails : Bool

/-- Mirrors `XiaomiSpp::ensure_bluetooth_pairing` (src/spp/xiaomi.rs lines
59-171).  A missing window or an undefined/null `navigator.bluetooth`
yields `Ok(None)`; the reflective accesses, casts, filter construction
and the synchronous `requestDevice` invocation are chained with `?` and
so propagate their errors; a rejected `requestDevice` promise or a failed
`BluetoothDevice` cast is swallowed into `Ok(None)`; every GATT-phase
failure is discarded, and the function then returns the discovered
(name, id) pair. -/
def ensure_bluetooth_pairing (env : BleEnv) : Except String (Option (String × String)) :=
  if !env.hasWindow then Except.ok none
  else
    match env.getBluetoothProp with
    | Except.error e => Except.error e
    | Except.ok none => Except.ok none
    | Except.ok (some _) =>
      match env.castBluetooth with
      | Except.error e => Except.error e
      | Except.ok _ =>
        match env.getRequestFn with
        | Except.error e => Except.error e
        | Except.ok _ =>
          match env.castRequestFn with
          | Except.error e => Except.error e
          | Except.ok _ =>
            match env.buildFilters with
            | Except.error e => Except.error e
            | Except.ok _ =>
              match env.callRequestFn with
              | Except.error e => Except.error e
              | Except.ok _ =>
                match env.castPromise with
                | Except.error e => Except.error e
                | Except.ok _ =>
                  match env.awaitRequest with
                  | Except.error _ => Except.ok none
                  | Except.ok _ =>
                    match env.castDevice with
                    | Except.error _ => Except.ok none
                    | Except.ok _ =>
                      let _gattConnect := env.gattConnectFails
                      let _gattWrites := env.gattWriteFails
                      Except.ok (some (env.deviceName, env.deviceId))

/-- Unbounded multi-producer single-consumer channel state, as used for
the install ProgressQueue (`async_channel::unbounded`): a FIFO buffer
plus a closed flag that becomes true once every receiver is dropped. -/
structure ProgressChan (E : Type) where
  buf : List E
  closed : Bool

/-- Mirrors `Sender::try_send` on an unbounded channel: a total,
non-suspending operation that appends to the buffer unless the channel
is closed, in which case the event is discarded (the source ignores the
returned result with `let _ = ...`). -/
def trySend {E : Type} (ch : ProgressChan E) (e : E) : Bool × ProgressChan E :=
  if ch.closed then (false, ch)
  else (true, { ch with buf := ch.buf ++ [e] })

/-- One producer step of the install progress pipeline: push one event
through `try_send` and record whether the enqueue completed. -/
def progressStep {E : Type} (acc : ProgressChan E × List Bool) (e : E) :
    ProgressChan E × List Bool :=
  let (ok, ch2) := trySend acc.1 e
  (ch2, acc.2 ++ [ok])

/-- Producer side of the install progress pipeline: the external install
system pushes each progress event through `try_send` in emission
order. -/
def produceAll {E : Type} (ch : ProgressChan E) (events : List E) :
    ProgressChan E × List Bool :=
  events.foldl progressStep (ch, [])

/-- Observable outcome of one `miwear_install` call: the progress
payloads passed to the JS callback in order, the wasm-visible terminal
result, the per-event `try_send` completions, and whether the
producer-side sender handle was dropped by the end of the call. -/
structure InstallOutcome (E : Type) where
  delivered : List E
  result : Except String Unit
  sendResults : List Bool
  senderDropped : Bool

/-- Mirrors `miwear_install` (src/frontapi/miwear.rs lines 333-404).
`setup` is the outcome of resource-type conversion plus
`with_miwear_device_mut` handing the transfer to the install system;
on its failure the call returns early (sender and receiver both dropped,
no events produced).  Otherwise a fresh unbounded ProgressQueue is
created; when a progress callback was supplied a forwarding task drains
the queue in arrival order into the callback, and when none was supplied
the receiver is dropped immediately, closing the channel so every
subsequent `try_send` discards its event.  The call resolves with the
install system's terminal result and then drops the producer-side
sender. -/
def miwear_install {E : Type} (setup : Except String Unit) (events : List E)
    (terminal : Except String Unit) (hasCb : Bool) : InstallOutcome E :=
  match setup with
  | Except.error e =>
    { delivered := [], result := Except.error e, sendResults := [], senderDropped := true }
  | Except.ok _ =>
    let ch0 : ProgressChan E := { buf := [], closed := !hasCb }
    let (chF, sends) := produceAll ch0 events
    { delivered := if hasCb then chF.buf else []
      result := terminal
      sendResults := sends
      senderDropped := true }

/-- Resource-kind tags of `corelib::device::xiaomi::resutils::FileType`
(external to this repository): only `Zip` and `Abp` are inspected by the
code under verification; the remaining constructors stand for the other
sniffed kinds. -/
inductive FileType where
  | Unknown
  | Zip
  | Abp
  | Watchface
  | Firmware
  | ThirdpartyApp
deriving DecidableEq, Repr

/-- Mirrors `miwear_get_file_type` (src/frontapi/miwear.rs lines
423-436): sniff the payload kind (`get_file_type` lives in the external
corelib and is supplied as the `sniff` parameter), and when the sniffed
kind is the generic `Zip` container and the last dot-separated segment
of the filename is "abp", return `Abp` instead. -/
def miwear_get_file_type (sniff : List Nat → FileType) (file : List Nat)
    (name : String) : FileType :=
  let fileType := sniff file
  if fileType = FileType.Zip then
    match (name.splitOn ".").getLast? with
    | some ext => if ext = "abp" then FileType.Abp else fileType
    | none => fileType
  else fileType

/-- ASCII lowercasing of one character, mirroring Rust's
`to_ascii_lowercase` (only the letters A-Z are mapped). -/
def asciiLowerChar (c : Char) : Char :=
  if 65 ≤ c.toNat ∧ c.toNat ≤ 90 then Char.ofNat (c.toNat + 32) else c

/-- ASCII lowercasing of a string, mirroring Rust's
`str::to_ascii_lowercase` (character-wise mapping). -/
def asciiLower (s : String) : String :=
  String.mk (s.data.map asciiLowerChar)

/-- Consultation of the serialized ECS runtime recorded by a front-api
call. -/
inductive RtConsult where
  | lookup (addr : String)
deriving DecidableEq, Repr

/-- Mirrors `miwear_get_data` (src/frontapi/miwear.rs lines 301-331):
ASCII-lowercase the requested type, dispatch to the info subsystem for
the three supported types ("info", "status", "storage" — the subsystem
round-trip is the `infoResp` oracle and its registry consultation is
recorded), and fail with `Unsupported data type: <lowercased>` for
anything else, without consulting the runtime and leaving the state
untouched. -/
def miwear_get_data (infoResp : String → String → Except String String)
    (addr data_type : String) (st : FrontState) :
    Except String String × FrontState × List RtConsult :=
  let lower := asciiLower data_type
  if lower = "info" ∨ lower = "status" ∨ lower = "storage" then
    (infoResp addr lower, st, [RtConsult.lookup addr])
  else
    (Except.error ("Unsupported data type: " ++ lower), st, [])

/-!
Helper predicates and lemmas shared by the claim theorems below.
-/

/-- Recognizes a "device-disconnected" notification in a front-api
trace. -/
def emitsDisconnected : FrontAction → Bool
  | FrontAction.emit e _ => e == "device-disconnected"
  | _ => false

/-- Recognizes the transport-close operation in a front-api trace. -/
def isPortClose : FrontAction → Bool
  | FrontAction.spp SppAction.portClose => true
  | _ => false

lemma notify_disconnected_sessions (addr : String) (st : FrontState) :
    (notify_disconnected addr st).1.sessions = st.sessions := rfl

lemma notify_disconnected_trace (addr : String) (st : FrontState) :
    (notify_disconnected addr st).2 =
      (if (st.devices.find? (fun p => p.1 == addr)).isSome
        then [FrontAction.removeEntity addr] else []) ++
      [FrontAction.emit "device-disconnected"
        (((st.devices.find? (fun p => p.1 == addr)).map
          (fun p => DeviceConnectionInfo.mk p.2 p.1)).getD
          (DeviceConnectionInfo.mk "" addr))] := by
  simp [notify_disconnected, remove_device_and_get_info]

lemma teardown_one_fst (jf : SppAction → Bool) (acc : FrontState × List FrontAction)
    (p : String × XiaomiSpp) :
    (teardown_one jf acc p).1 = (notify_disconnected p.1 acc.1).1 := rfl

lemma teardown_one_snd (jf : SppAction → Bool) (acc : FrontState × List FrontAction)
    (p : String × XiaomiSpp) :
    (teardown_one jf acc p).2
      = acc.2 ++ ((XiaomiSpp.disconnect jf p.2).2).map FrontAction.spp
          ++ (notify_disconnected p.1 acc.1).2 := rfl

lemma filter_emits_map_spp (l : List SppAction) :
    (l.map FrontAction.spp).filter emitsDisconnected = [] := by
  induction l with
  | nil => rfl
  | cons a t ih => simp [emitsDisconnected, ih]

lemma filter_portClose_map_removeSession (l : List (String × XiaomiSpp)) :
    (l.map (fun p => FrontAction.removeSession p.1)).filter isPortClose = [] := by
  induction l with
  | nil => rfl
  | cons a t ih => simp [isPortClose, ih]

lemma filter_emits_map_removeSession (l : List (String × XiaomiSpp)) :
    (l.map (fun p => FrontAction.removeSession p.1)).filter emitsDisconnected = [] := by
  induction l with
  | nil => rfl
  | cons a t ih => simp [emitsDisconnected, ih]

lemma portOpen_not_mem_map_removeSession (l : List (String × XiaomiSpp)) :
    FrontAction.spp SppAction.portOpen ∉ (l.map (fun p => FrontAction.removeSession p.1)) := by
  induction l with
  | nil => simp
  | cons a t ih => simp [ih]

lemma disconnect_trace_cases (jf : SppAction → Bool) (s : XiaomiSpp) :
    (XiaomiSpp.disconnect jf s).2
      = (if s.hasWriter then [SppAction.writerClose] else [])
        ++ (if s.hasReader then [SppAction.readerRelease] else [])
        ++ [SppAction.portClose] := rfl

lemma filter_portClose_disconnect (jf : SppAction → Bool) (s : XiaomiSpp) :
    (((XiaomiSpp.disconnect jf s).2).map FrontAction.spp).filter isPortClose
      = [FrontAction.spp SppAction.portClose] := by
  rw [disconnect_trace_cases]
  cases s.hasWriter <;> cases s.hasReader <;> simp [isPortClose]

lemma portOpen_not_mem_disconnect (jf : SppAction → Bool) (s : XiaomiSpp) :
    FrontAction.spp SppAction.portOpen ∉ ((XiaomiSpp.disconnect jf s).2).map FrontAction.spp := by
  rw [disconnect_trace_cases]
  cases s.hasWriter <;> cases s.hasReader <;> simp

lemma length_filter_emits_notify (addr : String) (st : FrontState) :
    (((notify_disconnected addr st).2).filter emitsDisconnected).length = 1 := by
  rw [notify_disconnected_trace]
  cases (st.devices.find? (fun p => p.1 == addr)).isSome <;>
    simp [emitsDisconnected]

lemma filter_portClose_notify (addr : String) (st : FrontState) :
    ((notify_disconnected addr st).2).filter isPortClose = [] := by
  rw [notify_disconnected_trace]
  cases (st.devices.find? (fun p => p.1 == addr)).isSome <;>
    simp [isPortClose]

lemma portOpen_not_mem_notify (addr : String) (st : FrontState) :
    FrontAction.spp SppAction.portOpen ∉ (notify_disconnected addr st).2 := by
  rw [notify_disconnected_trace]
  cases (st.devices.find? (fun p => p.1 == addr)).isSome <;> simp

lemma foldl_teardown_spec (jf : SppAction → Bool) (l : List (String × XiaomiSpp)) :
    ∀ (st : FrontState) (tr : List FrontAction),
      ((l.foldl (teardown_one jf) (st, tr)).1.sessions = st.sessions)
      ∧ (((l.foldl (teardown_one jf) (st, tr)).2.filter emitsDisconnected).length
          = (tr.filter emitsDisconnected).length + l.length)
      ∧ (((l.foldl (teardown_one jf) (st, tr)).2.filter isPortClose).length
          = (tr.filter isPortClose).length + l.length)
      ∧ (FrontAction.spp SppAction.portOpen ∈ (l.foldl (teardown_one jf) (st, tr)).2
          → FrontAction.spp SppAction.portOpen ∈ tr) := by
  induction l with
  | nil => intro st tr; simp
  | cons p t ih =>
    intro st tr
    have hfold : (p :: t).foldl (teardown_one jf) (st, tr)
        = t.foldl (teardown_one jf)
            ((teardown_one jf (st, tr) p).1, (teardown_one jf (st, tr) p).2) := by
      simp [List.foldl_cons]
    obtain ⟨ih1, ih2, ih3, ih4⟩ :=
      ih (teardown_one jf (st, tr) p).1 (teardown_one jf (st, tr) p).2
    rw [hfold]
    refine ⟨?_, ?_, ?_, ?_⟩
    · rw [ih1, teardown_one_fst, notify_disconnected_sessions]
    · rw [ih2, teardown_one_snd]
      simp [List.filter_append, filter_emits_map_spp, length_filter_emits_notify]
      omega
    · rw [ih3, teardown_one_snd]
      simp [List.filter_append, filter_portClose_disconnect, filter_portClose_notify]
      omega
    · intro hmem
      have := ih4 hmem
      rw [teardown_one_snd] at this
      rcases List.mem_append.mp this with h1 | h2
      · rcases List.mem_append.mp h1 with h3 | h4
        · exact h3
        · exact absurd h4 (portOpen_not_mem_disconnect jf p.2)
      · exact absurd h2 (portOpen_not_mem_notify p.1 (st, tr).1)

lemma disconnect_all_eq (jf : SppAction → Bool) (st : FrontState) :
    disconnect_all_sessions jf st
      = st.sessions.foldl (teardown_one jf)
          ({ st with sessions := [] },
           st.sessions.map (fun p => FrontAction.removeSession p.1)) := rfl

lemma disconnect_all_drains (jf : SppAction → Bool) (st : FrontState) :
    (disconnect_all_sessions jf st).1.sessions = [] := by
  rw [disconnect_all_eq]
  exact (foldl_teardown_spec jf st.sessions { st with sessions := [] }
    (st.sessions.map (fun p => FrontAction.removeSession p.1))).1

lemma disconnect_all_emit_count (jf : SppAction → Bool) (st : FrontState) :
    ((disconnect_all_sessions jf st).2.filter emitsDisconnected).length
      = st.sessions.length := by
  rw [disconnect_all_eq]
  have h := (foldl_teardown_spec jf st.sessions { st with sessions := [] }
    (st.sessions.map (fun p => FrontAction.removeSession p.1))).2.1
  rw [filter_emits_map_removeSession] at h
  simpa using h

lemma disconnect_all_portClose_count (jf : SppAction → Bool) (st : FrontState) :
    ((disconnect_all_sessions jf st).2.filter isPortClose).length
      = st.sessions.length := by
  rw [disconnect_all_eq]
  have h := (foldl_teardown_spec jf st.sessions { st with sessions := [] }
    (st.sessions.map (fun p => FrontAction.removeSession p.1))).2.2.1
  rw [filter_portClose_map_removeSession] at h
  simpa using h

lemma disconnect_all_no_portOpen (jf : SppAction → Bool) (st : FrontState) :
    FrontAction.spp SppAction.portOpen ∉ (disconnect_all_sessions jf st).2 := by
  rw [disconnect_all_eq]
  intro hmem
  exact absurd ((foldl_teardown_spec jf st.sessions { st with sessions := [] }
      (st.sessions.map (fun p => FrontAction.removeSession p.1))).2.2.2 hmem)
    (portOpen_not_mem_map_removeSession st.sessions)

lemma find?_filter_key_none {α : Type} (l : List (String × α)) (addr : String) :
    (l.filter (fun p => p.1 != addr)).find? (fun p => p.1 == addr) = none := by
  apply List.find?_eq_none.mpr
  intro x hx
  have hk := (List.mem_filter.mp hx).2
  simp only [bne_iff_ne, ne_eq] at hk
  simp [hk]

lemma filter_key_eq_self_of_none {α : Type} (l : List (String × α)) (addr : String)
    (h : l.find? (fun p => p.1 == addr) = none) :
    l.filter (fun p => p.1 != addr) = l := by
  apply List.filter_eq_self.mpr
  intro a ha
  have := List.find?_eq_none.mp h a ha
  simpa using this

/-!
Claim theorems.
-/

/-- C4: for every transport probe result, the derived device address is
"serial:&lt;number&gt;" when a hardware serial number is present; otherwise
"usb:&lt;vendor&gt;:&lt;product&gt;" when both vendor id and product id are present;
otherwise "serial-port-&lt;ts&gt;" with a timestamp; and the label is the
serial number if present, else the formatted vendor/product pair if both
ids are present, else absent. -/
theorem c4_address_label_derivation (info : List (String × JsPrim)) (now : Nat) :
    (∀ sn, read_optional_string info "serialNumber" = some sn →
      (XiaomiSpp.probe info now).device_addr = "serial:" ++ sn ∧
      (XiaomiSpp.probe info now).device_label = some sn) ∧
    (read_optional_string info "serialNumber" = none →
      ∀ v p, read_optional_u16 info "usbVendorId" = some v →
        read_optional_u16 info "usbProductId" = some p →
        (XiaomiSpp.probe info now).device_addr = "usb:" ++ hex4 v ++ ":" ++ hex4 p ∧
        (XiaomiSpp.probe info now).device_label
          = some ("USB " ++ hex4 v ++ ":" ++ hex4 p)) ∧
    (read_optional_string info "serialNumber" = none →
      (read_optional_u16 info "usbVendorId" = none
        ∨ read_optional_u16 info "usbProductId" = none) →
      (XiaomiSpp.probe info now).device_addr = "serial-port-" ++ toString now ∧
      (XiaomiSpp.probe info now).device_label = none) := by
  refine ⟨?_, ?_, ?_⟩
  · intro sn hsn
    simp [XiaomiSpp.probe, derive_device_addr, derive_device_label, hsn, Option.orElse]
  · intro hsn v p hv hp
    simp [XiaomiSpp.probe, derive_device_addr, derive_device_label, hsn, hv, hp,
          Option.orElse]
  · intro hsn hvp
    cases hv : read_optional_u16 info "usbVendorId" with
    | none =>
      simp [XiaomiSpp.probe, derive_device_addr, derive_device_label, hsn, hv,
            Option.orElse]
    | some v =>
      cases hp : read_optional_u16 info "usbProductId" with
      | none =>
        simp [XiaomiSpp.probe, derive_device_addr, derive_device_label, hsn, hv, hp,
              Option.orElse]
      | some p =>
        rcases hvp with h | h
        · rw [hv] at h; cases h
        · rw [hp] at h; cases h

/-- C4 witness: a probe whose port info carries the serial number "SN1"
derives address "serial:SN1" and label "SN1". -/
theorem c4_witness :
    (XiaomiSpp.probe [("serialNumber", JsPrim.str "SN1")] 5).device_addr = "serial:SN1" ∧
    (XiaomiSpp.probe [("serialNumber", JsPrim.str "SN1")] 5).device_label = some "SN1" :=
  (c4_address_label_derivation [("serialNumber", JsPrim.str "SN1")] 5).1 "SN1" (by decide)

/-- C9: payload classification returns the kind sniffed from the payload
bytes, except that a sniffed generic Zip container whose filename
extension (last dot-separated segment) is "abp" is reported as Abp; the
filename hint never changes any other sniffed kind.  The byte-sniffing
function itself lives in the external corelib and is quantified over. -/
theorem c9_classify_payload (sniff : List Nat → FileType) (file : List Nat)
    (name : String) :
    miwear_get_file_type sniff file name =
      if sniff file = FileType.Zip ∧ (name.splitOn ".").getLast? = some "abp"
      then FileType.Abp else sniff file := by
  by_cases hz : sniff file = FileType.Zip
  · cases hl : (name.splitOn ".").getLast? with
    | none => simp [miwear_get_file_type, hz, hl]
    | some ext =>
      by_cases he : ext = "abp"
      · simp [miwear_get_file_type, hz, hl, he]
      · simp [miwear_get_file_type, hz, hl, he]
  · simp [miwear_get_file_type, hz]

/-- C10 counterexample: for the data type "Foo" (whose ASCII-lowercase
form is unsupported) the call fails, but the error message carries the
lowercased form "foo", not the original string "Foo" as the claim
states. -/
theorem c10_counterexample :
    (miwear_get_data (fun _ _ => Except.ok "") "addr" "Foo" (FrontState.mk [] [] [])).1
      = Except.error "Unsupported data type: foo"
    ∧ ("Unsupported data type: foo" : String) ≠ "Unsupported data type: Foo" := by
  refine ⟨rfl, by decide⟩

/-- C10 (amended): for every address and every data type whose
ASCII-lowercase form is not "info", "status" or "storage" (matching is
case-insensitive), miwear_get_data fails with the message
"Unsupported data type: " followed by the ASCII-lowercased type, without
consulting the device runtime and without mutating any state. -/
theorem c10_unsupported_data_type (infoResp : String → String → Except String String)
    (addr data_type : String) (st : FrontState)
    (h : ¬(asciiLower data_type = "info" ∨ asciiLower data_type = "status"
        ∨ asciiLower data_type = "storage")) :
    miwear_get_data infoResp addr data_type st
      = (Except.error ("Unsupported data type: " ++ asciiLower data_type), st, []) := by
  simp [miwear_get_data, h]

/-- C10 witness: the concrete unsupported type "Foo" yields the
lowercased error message, an unchanged state and no runtime
consultation. -/
theorem c10_witness :
    miwear_get_data (fun _ _ => Except.ok "") "a" "Foo" (FrontState.mk [] [] [])
      = (Except.error "Unsupported data type: foo", FrontState.mk [] [] [], []) :=
  c10_unsupported_data_type (fun _ _ => Except.ok "") "a" "Foo"
    (FrontState.mk [] [] []) (by decide)

/-- Scenario A run: connect("Watch", "") with an echoing dispatcher on a
fresh probe whose derived address is "serial:SN123", from an empty
state. -/
def scenarioA : Except String DeviceConnectionInfo × FrontState × List FrontAction :=
  miwear_connect (fun _ => false) (ProbeOutcome.ok "serial:SN123" none)
    (fun n a => Except.ok (DeviceConnectionInfo.mk n a)) "Watch" ""
    (FrontState.mk [] [] [])

/-- C5: for every successful connect against a dispatcher that accepts
the handshake and echoes the supplied identity, the resulting name is
the explicit name if non-empty, else the probed label, else
"Bluetooth Device", and the resulting address is the explicit hint if
non-blank, else the probed address; in particular connect("Watch", "")
on a probe with address "serial:SN123" yields
{name: "Watch", address: "serial:SN123"}, emits one "device-connected"
event with that payload, and leaves that session as the only entry. -/
theorem c5_final_name_and_address :
    (∀ (jsFail : SppAction → Bool) (dAddr : String) (dLabel : Option String)
        (name hint : String) (st : FrontState),
      (miwear_connect jsFail (ProbeOutcome.ok dAddr dLabel)
          (fun n a => Except.ok (DeviceConnectionInfo.mk n a)) name hint st).1 =
        Except.ok (DeviceConnectionInfo.mk
          (if name.isEmpty then dLabel.getD "Bluetooth Device" else name)
          (if isBlank hint then dAddr else hint)))
    ∧ scenarioA.1 = Except.ok (DeviceConnectionInfo.mk "Watch" "serial:SN123")
    ∧ scenarioA.2.1.sessions.map Prod.fst = ["serial:SN123"]
    ∧ scenarioA.2.1.events
        = [("device-connected", DeviceConnectionInfo.mk "Watch" "serial:SN123")]
    ∧ miwear_get_connected_devices scenarioA.2.1
        = [DeviceConnectionInfo.mk "Watch" "serial:SN123"] := by
  refine ⟨?_, rfl, rfl, rfl, rfl⟩
  intro jsFail dAddr dLabel name hint st
  cases hst : disconnect_all_sessions jsFail st with
  | mk st1 tr1 => simp [miwear_connect, hst, XiaomiSpp.start]

/-- C1 counterexample: a concrete connect run in which the transport
probe succeeds and the handshake fails with "bad authkey": the call does
fail with that error, but the writer-close operation that the claim
requires as part of the transport release is absent from the run's whole
trace. -/
theorem c1_counterexample :
    (miwear_connect (fun _ => false) (ProbeOutcome.ok "serial:SN123" none)
        (fun _ _ => Except.error "bad authkey") "Watch" "" (FrontState.mk [] [] [])).1
      = Except.error "bad authkey"
    ∧ FrontAction.spp SppAction.writerClose
        ∉ (miwear_connect (fun _ => false) (ProbeOutcome.ok "serial:SN123" none)
            (fun _ _ => Except.error "bad authkey") "Watch" ""
            (FrontState.mk [] [] [])).2.2 := by
  refine ⟨rfl, by decide⟩

/-- C1 (amended): whenever the transport probe succeeds but the external
dispatcher's handshake fails, the connect call fails with the handshake
error, no session is registered (the registry ends empty and the device
list gains no entry), and the transport is released by releasing the
reader and closing the transport handle — the writer handle is not
closed on this path. -/
theorem c1_handshake_failure (jsFail : SppAction → Bool) (dAddr : String)
    (dLabel : Option String) (cause name hint : String) (st : FrontState) :
    (miwear_connect jsFail (ProbeOutcome.ok dAddr dLabel)
        (fun _ _ => Except.error cause) name hint st)
      = (Except.error cause,
         (disconnect_all_sessions jsFail st).1,
         (disconnect_all_sessions jsFail st).2
           ++ [FrontAction.spp SppAction.portOpen,
               FrontAction.spp SppAction.readerAcquire,
               FrontAction.spp SppAction.writerAcquire,
               FrontAction.spp SppAction.readerRelease,
               FrontAction.spp SppAction.portClose])
    ∧ (miwear_connect jsFail (ProbeOutcome.ok dAddr dLabel)
        (fun _ _ => Except.error cause) name hint st).2.1.sessions = []
    ∧ FrontAction.spp SppAction.writerClose
        ∉ ([FrontAction.spp SppAction.portOpen,
            FrontAction.spp SppAction.readerAcquire,
            FrontAction.spp SppAction.writerAcquire,
            FrontAction.spp SppAction.readerRelease,
            FrontAction.spp SppAction.portClose] : List FrontAction) := by
  refine ⟨?_, ?_, by decide⟩
  · cases hst : disconnect_all_sessions jsFail st with
    | mk st1 tr1 => simp [miwear_connect, hst, XiaomiSpp.start, List.append_assoc]
  · cases hst : disconnect_all_sessions jsFail st with
    | mk st1 tr1 =>
      have hdr := disconnect_all_drains jsFail st
      rw [hst] at hdr
      simp only [miwear_connect, hst, XiaomiSpp.start]
      simpa using hdr

/-- C3 counterexample: disconnecting an address on a fully empty state
emits the expected empty-name notification, but the wasm-visible return
value is `undefined` (the Rust function returns `Ok(())`), not the
ConnectionInfo snapshot the claim states. -/
theorem c3_counterexample :
    (miwear_disconnect (fun _ => false) "unknown-addr" (FrontState.mk [] [] [])).1
      = Except.ok JsRet.undef
    ∧ (Except.ok JsRet.undef : Except String JsRet)
        ≠ Except.ok (JsRet.infoVal (DeviceConnectionInfo.mk "" "unknown-addr"))
    ∧ (miwear_disconnect (fun _ => false) "unknown-addr" (FrontState.mk [] [] [])).2.1.events
      = [("device-disconnected", DeviceConnectionInfo.mk "" "unknown-addr")] := by
  refine ⟨rfl, by simp, rfl⟩

/-- C3 (amended): for every address registered neither in the session
registry nor in the device runtime, disconnect does not throw, returns
unit (marshalled as `undefined`, not a ConnectionInfo), performs no
teardown or state mutation beyond appending the notification, and emits
exactly one "device-disconnected" event whose payload is
{name: "", address}. -/
theorem c3_unknown_address_disconnect (jsFail : SppAction → Bool) (addr : String)
    (st : FrontState)
    (hs : st.sessions.find? (fun p => p.1 == addr) = none)
    (hd : st.devices.find? (fun p => p.1 == addr) = none) :
    miwear_disconnect jsFail addr st
      = (Except.ok JsRet.undef,
         { st with events := st.events
            ++ [("device-disconnected", DeviceConnectionInfo.mk "" addr)] },
         [FrontAction.emit "device-disconnected" (DeviceConnectionInfo.mk "" addr)]) := by
  simp [miwear_disconnect, notify_disconnected, remove_device_and_get_info, hs, hd,
        filter_key_eq_self_of_none st.sessions addr hs,
        filter_key_eq_self_of_none st.devices addr hd]

/-- C3 witness: disconnecting the unknown address "gone" on an empty
state returns `undefined` and emits one empty-name notification. -/
theorem c3_witness :
    miwear_disconnect (fun _ => false) "gone" (FrontState.mk [] [] [])
      = (Except.ok JsRet.undef,
         FrontState.mk [] [] [("device-disconnected", DeviceConnectionInfo.mk "" "gone")],
         [FrontAction.emit "device-disconnected" (DeviceConnectionInfo.mk "" "gone")]) :=
  c3_unknown_address_disconnect (fun _ => false) "gone" (FrontState.mk [] [] []) rfl rfl

/-- C7: disconnect is idempotent: for a registered address, two
disconnect calls in sequence perform exactly one transport teardown (the
registry entry is removed as the first mutating action of the first
call, so the second call finds no session) and emit two
"device-disconnected" notifications, the second with an empty name. -/
theorem c7_disconnect_idempotent (jsFail : SppAction → Bool) (addr nm : String)
    (s : XiaomiSpp) (st : FrontState)
    (hs : st.sessions.find? (fun p => p.1 == addr) = some (addr, s))
    (hd : st.devices.find? (fun p => p.1 == addr) = some (addr, nm)) :
    ((miwear_disconnect jsFail addr st).2.2
      = FrontAction.removeSession addr
          :: (((XiaomiSpp.disconnect jsFail s).2).map FrontAction.spp
              ++ [FrontAction.removeEntity addr,
                  FrontAction.emit "device-disconnected"
                    (DeviceConnectionInfo.mk nm addr)]))
    ∧ ((miwear_disconnect jsFail addr (miwear_disconnect jsFail addr st).2.1).2.2
      = [FrontAction.emit "device-disconnected" (DeviceConnectionInfo.mk "" addr)])
    ∧ ((miwear_disconnect jsFail addr (miwear_disconnect jsFail addr st).2.1).2.1.events
      = st.events
          ++ [("device-disconnected", DeviceConnectionInfo.mk nm addr),
              ("device-disconnected", DeviceConnectionInfo.mk "" addr)])
    ∧ (List.filter isPortClose
          ((miwear_disconnect jsFail addr st).2.2
            ++ (miwear_disconnect jsFail addr (miwear_disconnect jsFail addr st).2.1).2.2)
      = [FrontAction.spp SppAction.portClose]) := by
  have h1 : miwear_disconnect jsFail addr st
      = (Except.ok JsRet.undef,
         { st with
            sessions := st.sessions.filter (fun p => p.1 != addr)
            devices := st.devices.filter (fun p => p.1 != addr)
            events := st.events
              ++ [("device-disconnected", DeviceConnectionInfo.mk nm addr)] },
         FrontAction.removeSession addr
           :: (((XiaomiSpp.disconnect jsFail s).2).map FrontAction.spp
               ++ [FrontAction.removeEntity addr,
                   FrontAction.emit "device-disconnected"
                     (DeviceConnectionInfo.mk nm addr)])) := by
    simp [miwear_disconnect, notify_disconnected, remove_device_and_get_info, hs, hd]
  have hs2 : (st.sessions.filter (fun p => p.1 != addr)).find?
      (fun p => p.1 == addr) = none := find?_filter_key_none st.sessions addr
  have hd2 : (st.devices.filter (fun p => p.1 != addr)).find?
      (fun p => p.1 == addr) = none := find?_filter_key_none st.devices addr
  have h2 : miwear_disconnect jsFail addr (miwear_disconnect jsFail addr st).2.1
      = (Except.ok JsRet.undef,
         { sessions := (st.sessions.filter (fun p => p.1 != addr)).filter
              (fun p => p.1 != addr)
           devices := (st.devices.filter (fun p => p.1 != addr)).filter
              (fun p => p.1 != addr)
           events := (st.events
              ++ [("device-disconnected", DeviceConnectionInfo.mk nm addr)])
              ++ [("device-disconnected", DeviceConnectionInfo.mk "" addr)] },
         [FrontAction.emit "device-disconnected" (DeviceConnectionInfo.mk "" addr)]) := by
    rw [h1]
    simp [miwear_disconnect, notify_disconnected, remove_device_and_get_info, hs2, hd2]
  refine ⟨by rw [h1], by rw [h2], by rw [h2]; simp, ?_⟩
  rw [h2, h1]
  simp [List.filter_append, isPortClose, filter_portClose_disconnect]

/-- Concrete one-session state used to witness the idempotent-disconnect
theorem. -/
def stateC7 : FrontState :=
  FrontState.mk [("addr1", XiaomiSpp.mk "addr1" none true true)]
    [("addr1", "Watch")] []

/-- C7 witness: the two-call scenario on a concrete one-session state —
one teardown trace, a second call that only notifies, two notifications
with the second carrying an empty name, and exactly one transport close
overall. -/
theorem c7_witness :
    ((miwear_disconnect (fun _ => false) "addr1" stateC7).2.2
      = FrontAction.removeSession "addr1"
          :: (((XiaomiSpp.disconnect (fun _ => false)
                (XiaomiSpp.mk "addr1" none true true)).2).map FrontAction.spp
              ++ [FrontAction.removeEntity "addr1",
                  FrontAction.emit "device-disconnected"
                    (DeviceConnectionInfo.mk "Watch" "addr1")]))
    ∧ ((miwear_disconnect (fun _ => false) "addr1"
          (miwear_disconnect (fun _ => false) "addr1" stateC7).2.1).2.2
      = [FrontAction.emit "device-disconnected" (DeviceConnectionInfo.mk "" "addr1")])
    ∧ ((miwear_disconnect (fun _ => false) "addr1"
          (miwear_disconnect (fun _ => false) "addr1" stateC7).2.1).2.1.events
      = [("device-disconnected", DeviceConnectionInfo.mk "Watch" "addr1"),
         ("device-disconnected", DeviceConnectionInfo.mk "" "addr1")])
    ∧ (List.filter isPortClose
          ((miwear_disconnect (fun _ => false) "addr1" stateC7).2.2
            ++ (miwear_disconnect (fun _ => false) "addr1"
                (miwear_disconnect (fun _ => false) "addr1" stateC7).2.1).2.2)
      = [FrontAction.spp SppAction.portClose]) := by
  have h := c7_disconnect_idempotent (fun _ => false) "addr1" "Watch"
    (XiaomiSpp.mk "addr1" none true true) stateC7 (by decide) (by decide)
  simpa using h

/-- C6: every connect call first tears down all currently registered
sessions: the teardown phase is a prefix of the connect trace, drains
the registry, emits exactly one "device-disconnected" notification and
closes exactly one transport per previously registered session, opens no
transport itself — and the outcome of connect is independent of
teardown-step failures. -/
theorem c6_connect_teardown_first (jsFail : SppAction → Bool) (probe : ProbeOutcome)
    (handshake : String → String → Except String DeviceConnectionInfo)
    (name hint : String) (st : FrontState) :
    (∃ rest, (miwear_connect jsFail probe handshake name hint st).2.2
        = (disconnect_all_sessions jsFail st).2 ++ rest)
    ∧ (disconnect_all_sessions jsFail st).1.sessions = []
    ∧ ((disconnect_all_sessions jsFail st).2.filter emitsDisconnected).length
        = st.sessions.length
    ∧ ((disconnect_all_sessions jsFail st).2.filter isPortClose).length
        = st.sessions.length
    ∧ FrontAction.spp SppAction.portOpen ∉ (disconnect_all_sessions jsFail st).2
    ∧ ∀ jsFail2, miwear_connect jsFail2 probe handshake name hint st
        = miwear_connect jsFail probe handshake name hint st := by
  refine ⟨?_, disconnect_all_drains jsFail st, disconnect_all_emit_count jsFail st,
          disconnect_all_portClose_count jsFail st,
          disconnect_all_no_portOpen jsFail st, fun jsFail2 => rfl⟩
  cases hst : disconnect_all_sessions jsFail st with
  | mk st1 tr1 =>
    cases probe with
    | fail e => exact ⟨[], by simp [miwear_connect, hst]⟩
    | ok dAddr dLabel =>
      cases hh : (XiaomiSpp.start (XiaomiSpp.mk dAddr dLabel false false)
          name hint handshake).result with
      | error e =>
        refine ⟨FrontAction.spp SppAction.portOpen
            :: ((XiaomiSpp.start (XiaomiSpp.mk dAddr dLabel false false)
                name hint handshake).trace.map FrontAction.spp), ?_⟩
        simp [miwear_connect, hst, hh, List.append_assoc]
      | ok info =>
        refine ⟨FrontAction.spp SppAction.portOpen
            :: ((XiaomiSpp.start (XiaomiSpp.mk dAddr dLabel false false)
                name hint handshake).trace.map FrontAction.spp
              ++ [FrontAction.emit "device-connected" info]), ?_⟩
        simp [miwear_connect, hst, hh, List.append_assoc]

/-- Concrete environment refuting the never-fails claim: the
`navigator.bluetooth` value is present but its cast to a Bluetooth
object fails, and the `?` operator propagates that error. -/
def bleEnvCounter : BleEnv :=
  { hasWindow := true
    getBluetoothProp := Except.ok (some ())
    castBluetooth := Except.error "bluetooth object cast failed"
    getRequestFn := Except.ok ()
    castRequestFn := Except.ok ()
    buildFilters := Except.ok ()
    callRequestFn := Except.ok ()
    castPromise := Except.ok ()
    awaitRequest := Except.ok ()
    castDevice := Except.ok ()
    deviceName := "Device"
    deviceId := "id-1"
    gattConnectFails := false
    gattWriteFails := false }

/-- C2 counterexample: the pre-pairing nudge does return an error to its
caller in a concrete environment where one of the reflective setup steps
fails, contradicting "the function never returns an error". -/
theorem c2_counterexample :
    ensure_bluetooth_pairing bleEnvCounter
      = Except.error "bluetooth object cast failed" := rfl

/-- C2 (amended): provided the reflective setup steps (bluetooth property
access, the two casts, filter construction, the synchronous requestDevice
invocation and the promise cast) succeed, every remaining failure — a
rejected requestDevice promise, a failed device cast, and any GATT-phase
failure — is swallowed: the call returns an optional (name, id) pair or
nothing, and its outcome is independent of the GATT failure flags.
Failures of the reflective setup steps, however, propagate via `?`; the
function also has no caller under src/, so it never fails a connect
flow. -/
theorem c2_pairing_failures_swallowed (env : BleEnv) (bt : Option Unit)
    (h1 : env.getBluetoothProp = Except.ok bt)
    (h2 : env.castBluetooth = Except.ok ())
    (h3 : env.getRequestFn = Except.ok ())
    (h4 : env.castRequestFn = Except.ok ())
    (h5 : env.buildFilters = Except.ok ())
    (h6 : env.callRequestFn = Except.ok ())
    (h7 : env.castPromise = Except.ok ()) :
    (∃ r : Option (String × String), ensure_bluetooth_pairing env = Except.ok r)
    ∧ ∀ b1 b2, ensure_bluetooth_pairing
        { env with gattConnectFails := b1, gattWriteFails := b2 }
        = ensure_bluetooth_pairing env := by
  refine ⟨?_, fun b1 b2 => rfl⟩
  cases hw : env.hasWindow with
  | false => exact ⟨none, by simp [ensure_bluetooth_pairing, hw]⟩
  | true =>
    cases bt with
    | none => exact ⟨none, by simp [ensure_bluetooth_pairing, hw, h1]⟩
    | some u =>
      cases har : env.awaitRequest with
      | error e =>
        exact ⟨none, by
          simp [ensure_bluetooth_pairing, hw, h1, h2, h3, h4, h5, h6, h7, har]⟩
      | ok v =>
        cases hcd : env.castDevice with
        | error e =>
          exact ⟨none, by
            simp [ensure_bluetooth_pairing, hw, h1, h2, h3, h4, h5, h6, h7, har, hcd]⟩
        | ok w =>
          exact ⟨some (env.deviceName, env.deviceId), by
            simp [ensure_bluetooth_pairing, hw, h1, h2, h3, h4, h5, h6, h7, har, hcd]⟩

/-- Concrete environment for the C2 witness: setup succeeds, but the user
rejects the requestDevice prompt; the rejection is swallowed. -/
def bleEnvRejected : BleEnv :=
  { hasWindow := true
    getBluetoothProp := Except.ok (some ())
    castBluetooth := Except.ok ()
    getRequestFn := Except.ok ()
    castRequestFn := Except.ok ()
    buildFilters := Except.ok ()
    callRequestFn := Except.ok ()
    castPromise := Except.ok ()
    awaitRequest := Except.error "user cancelled the chooser"
    castDevice := Except.ok ()
    deviceName := "Device"
    deviceId := "id-1"
    gattConnectFails := true
    gattWriteFails := true }

/-- C2 witness: with the setup steps succeeding and the device request
rejected, the nudge still completes without error. -/
theorem c2_witness :
    (∃ r : Option (String × String),
      ensure_bluetooth_pairing bleEnvRejected = Except.ok r)
    ∧ ∀ b1 b2, ensure_bluetooth_pairing
        { bleEnvRejected with gattConnectFails := b1, gattWriteFails := b2 }
        = ensure_bluetooth_pairing bleEnvRejected :=
  c2_pairing_failures_swallowed bleEnvRejected (some ())
    rfl rfl rfl rfl rfl rfl rfl

lemma foldl_progress_open {E : Type} (events : List E) :
    ∀ (buf : List E) (oks : List Bool),
      events.foldl progressStep (ProgressChan.mk buf false, oks)
        = (ProgressChan.mk (buf ++ events) false,
           oks ++ List.replicate events.length true) := by
  induction events with
  | nil => intro buf oks; simp
  | cons e es ih =>
    intro buf oks
    have hstep : progressStep (ProgressChan.mk buf false, oks) e
        = (ProgressChan.mk (buf ++ [e]) false, oks ++ [true]) := rfl
    rw [List.foldl_cons, hstep, ih (buf ++ [e]) (oks ++ [true])]
    simp [List.replicate_succ, List.append_assoc]

lemma foldl_progress_closed {E : Type} (events : List E) :
    ∀ (buf : List E) (oks : List Bool),
      events.foldl progressStep (ProgressChan.mk buf true, oks)
        = (ProgressChan.mk buf true,
           oks ++ List.replicate events.length false) := by
  induction events with
  | nil => intro buf oks; simp
  | cons e es ih =>
    intro buf oks
    have hstep : progressStep (ProgressChan.mk buf true, oks) e
        = (ProgressChan.mk buf true, oks ++ [false]) := rfl
    rw [List.foldl_cons, hstep, ih buf (oks ++ [false])]
    simp [List.replicate_succ, List.append_assoc]

/-- C8: when the handoff to the install system succeeds, every progress
event is relayed to the progress callback in arrival order when one was
supplied at call time and discarded when none was; the producer-side
enqueue completes for every event regardless of callback presence (one
non-blocking `try_send` completion per event); the call resolves with
the install system's terminal result; and the producer-side sender
handle is dropped by the end of the call, so the forwarding task
observes queue closure. -/
theorem c8_install_progress_pipeline {E : Type} (events : List E)
    (terminal : Except String Unit) :
    ((miwear_install (Except.ok ()) events terminal true).delivered = events)
    ∧ ((miwear_install (Except.ok ()) events terminal false).delivered = ([] : List E))
    ∧ (∀ hasCb, (miwear_install (Except.ok ()) events terminal hasCb).result = terminal)
    ∧ (∀ hasCb,
        ((miwear_install (Except.ok ()) events terminal hasCb).sendResults).length
          = events.length)
    ∧ (∀ hasCb,
        (miwear_install (Except.ok ()) events terminal hasCb).senderDropped = true) := by
  have hopen := foldl_progress_open events ([] : List E) ([] : List Bool)
  have hclosed := foldl_progress_closed events ([] : List E) ([] : List Bool)
  refine ⟨?_, ?_, ?_, ?_, ?_⟩
  · simp [miwear_install, produceAll, hopen]
  · simp [miwear_install, produceAll, hclosed]
  · intro hasCb
    cases hasCb <;> simp [miwear_install, produceAll, hopen, hclosed]
  · intro hasCb
    cases hasCb <;> simp [miwear_install, produceAll, hopen, hclosed]
  · intro hasCb
    cases hasCb <;> simp [miwear_install, produceAll, hopen, hclosed]

end AppWasm
